import Mathlib

/-!
Shallow embedding of the Gazarr acquisition pipeline
(`src/backend/app/{services,download_tracker,download_monitor,auto_downloader,issue_parser}.py`)
together with theorems settling the frozen claims about it.

Modelling conventions:
* `datetime` values are integer timestamps (seconds); `timedelta(minutes=m)`
  is `m * 60`.
* Python `Optional[T]` is `Option T`; Python truthiness of an optional string
  ("if s:") is `optStrTruthy`.
* Progress percentages (Python floats compared only for equality and set to
  constants) are rationals.
* The database is an ordered list of `DownloadJob` rows; `.first()` is
  `List.find?`.
* The parser's dependence on `datetime.datetime.utcnow().year` is made explicit
  as a `cy` (current year) argument.
-/

namespace Gazarr

/-! ## Python string and integer helpers -/

/-- Truthiness of a Python `Optional[str]`: `None` and `""` are falsy. -/
def optStrTruthy : Option String → Bool
  | none => false
  | some s => s ≠ ""

/-- Python `str.lower()` (ASCII case mapping, which is all these inputs
use). -/
def pyLower (s : String) : String := String.mk (s.data.map Char.toLower)

/-- Python `str.strip()` with no argument: trim surrounding whitespace. -/
def pyTrim (s : String) : String :=
  String.mk (((s.data.dropWhile Char.isWhitespace).reverse.dropWhile
    Char.isWhitespace).reverse)

/-- Python slicing `s[:n]`. -/
def strTake (s : String) (n : Nat) : String := String.mk (s.data.take n)

/-- Python slicing `s[n:]`. -/
def strDrop (s : String) (n : Nat) : String := String.mk (s.data.drop n)

/-- Python `s.startswith(t)`. -/
def pyStartsWith (s t : String) : Bool := t.data.isPrefixOf s.data

/-- Python `s.endswith(t)`. -/
def pyEndsWith (s t : String) : Bool := t.data.reverse.isPrefixOf s.data.reverse

/-- Python `s.replace(a, b)` for single characters. -/
def replaceChar (s : String) (tgt rep : Char) : String :=
  String.mk (s.data.map (fun c => if c = tgt then rep else c))

/-- Python `s.split(sep)` for a single-character separator (keeps empty
fields). -/
def splitOnCharGo (sep : Char) : List Char → List Char → List String
  | [], acc => [String.mk acc.reverse]
  | c :: cs, acc =>
    if c = sep then String.mk acc.reverse :: splitOnCharGo sep cs []
    else splitOnCharGo sep cs (c :: acc)

def splitOnChar (s : String) (sep : Char) : List String :=
  splitOnCharGo sep s.data []

/-- Python `str.split()` with no argument: split on whitespace runs,
dropping empty fields. -/
def splitWSGo : List Char → List Char → List String
  | [], acc => if acc.isEmpty then [] else [String.mk acc.reverse]
  | c :: cs, acc =>
    if c.isWhitespace then
      (if acc.isEmpty then splitWSGo cs [] else String.mk acc.reverse :: splitWSGo cs [])
    else splitWSGo cs (c :: acc)

def pySplitWS (s : String) : List String := splitWSGo s.data []

/-- Python `str.strip('.')`: remove leading and trailing dots. -/
def stripDots (s : String) : String :=
  String.mk ((s.data.dropWhile (fun c => c = '.')).reverse.dropWhile (fun c => c = '.')).reverse

/-- Python `str.isdigit()` on an ASCII string: non-empty and all digits. -/
def pyIsDigitStr (s : String) : Bool :=
  s ≠ "" && s.data.all Char.isDigit

/-- Value of a non-empty all-digit string. -/
def digitsToNat (s : String) : Nat :=
  s.data.foldl (fun a c => a * 10 + (c.toNat - 48)) 0

def digitsToInt (s : String) : Int := (digitsToNat s : Int)

/-- Python `int(val)` with `try/except` returning `default`
(`check_int` in `issue_parser.py`): optional sign followed by digits, after
stripping surrounding whitespace. -/
def check_int (val : Option String) (default : Int) : Int :=
  match val with
  | none => default
  | some s =>
    let t := pyTrim s
    if pyIsDigitStr t then digitsToInt t
    else if pyStartsWith t "-" && pyIsDigitStr (strDrop t 1) then -(digitsToInt (strDrop t 1))
    else if pyStartsWith t "+" && pyIsDigitStr (strDrop t 1) then digitsToInt (strDrop t 1)
    else default

/-- Python `re.sub(r"\D", "", s)`: keep only digit characters. -/
def digitsOnly (s : String) : String :=
  String.mk (s.data.filter Char.isDigit)

/-- Python `str.zfill(width)` applied to `str(n)` / `f"{n:0Nd}"`:
zero-pad to `width` counting the sign. -/
def natPad (width : Nat) (m : Nat) : String :=
  let s := toString m
  if s.length < width then String.mk (List.replicate (width - s.length) '0') ++ s else s

def intPad (width : Nat) (n : Int) : String :=
  if n < 0 then "-" ++ natPad (width - 1) n.natAbs else natPad width n.natAbs

/-- Substring containment, Python `needle in hay`. -/
def pyContains (hay needle : String) : Bool :=
  hay.data.tails.any (fun t => needle.data.isPrefixOf t)

/-- First-occurrence dedup of a list (order-preserving; models
`list(dict.fromkeys(xs))` and the iteration order-irrelevant uses of
`set(...)`): keep the head, drop its later duplicates. -/
def dedupFirst : List Int → List Int
  | [] => []
  | x :: xs => x :: (dedupFirst xs).filter (fun y => y ≠ x)

/-- CPython `PurePath.stem` on a bare file name: drop the final suffix when
`0 < i < len(name) - 1` for the last dot position `i`. -/
def pathStem (s : String) : String :=
  let cs := s.data
  match ((List.range cs.length).filter (fun k => cs.getD k ' ' = '.')).getLast? with
  | some k => if 0 < k ∧ k < cs.length - 1 then String.mk (cs.take k) else s
  | none => s

/-! ## Data model (`models.py`): the DownloadJob row -/

/-- `models.DownloadJob`. `id` is the primary key; persisted rows always carry
one, so it is modelled as a plain `Nat`. `created_at`/`updated_at` are
`nullable=False`. -/
structure DownloadJob where
  id : Nat
  sabnzbd_id : Option String
  title : Option String
  magazine_title : Option String
  link : Option String
  content_name : Option String
  status : String
  sab_status : Option String
  progress : Option Rat
  time_remaining : Option String
  message : Option String
  clean_name : Option String
  thumbnail_path : Option String
  staging_path : Option String
  issue_code : Option String
  issue_label : Option String
  issue_year : Option Int
  issue_month : Option Int
  issue_number : Option Int
  last_seen : Option Int
  created_at : Int
  updated_at : Int
  completed_at : Option Int
  moved_at : Option Int
deriving Repr, DecidableEq

/-- The database: an ordered list of rows. -/
abbrev JobDB := List DownloadJob

/-! ## Job store services (`services.py`) -/

/-- `services.get_download_job_by_nzo`: first row whose `sabnzbd_id` equals
the given id. -/
def get_download_job_by_nzo (db : JobDB) (nzo_id : String) : Option DownloadJob :=
  db.find? (fun j => j.sabnzbd_id = some nzo_id)

/-- `services.list_active_download_jobs`: all rows whose status is not in
`["failed", "moved"]`. -/
def list_active_download_jobs (db : JobDB) : JobDB :=
  db.filter (fun j => decide (j.status ≠ "failed" ∧ j.status ≠ "moved"))

/-- Python `if supplied and current != supplied: current = supplied; changed = True`
for an optional-string field (string truthiness guard). -/
def updTruthyStr (supplied current : Option String) : Option String × Bool :=
  match supplied with
  | some s => if s ≠ "" ∧ current ≠ some s then (some s, true) else (current, false)
  | none => (current, false)

/-- Python `if supplied is not None and current != supplied: ...` for any
optional field. Also models the `if completed_at and ...` guard, since a
`datetime` value is always truthy. -/
def updNotNone {α : Type} [DecidableEq α] (supplied current : Option α) :
    Option α × Bool :=
  match supplied with
  | some v => if current ≠ some v then (some v, true) else (current, false)
  | none => (current, false)

/-- Python `if status and job.status != status: ...` where the stored status
is a plain string. -/
def updOptStatus (supplied : Option String) (current : String) : String × Bool :=
  match supplied with
  | some s => if s ≠ "" ∧ current ≠ s then (s, true) else (current, false)
  | none => (current, false)

/-- Keyword arguments of `services.update_download_job_status`. -/
structure StatusUpdate where
  status : Option String := none
  sab_status : Option String := none
  progress : Option Rat := none
  time_remaining : Option String := none
  message : Option String := none
  content_name : Option String := none
  completed_at : Option Int := none
  clean_name : Option String := none
  thumbnail_path : Option String := none
  staging_path : Option String := none
  magazine_title : Option String := none
  issue_code : Option String := none
  issue_label : Option String := none
  issue_year : Option Int := none
  issue_month : Option Int := none
  issue_number : Option Int := none
deriving Repr, DecidableEq

/-- The field updates of `services.update_download_job_status`, written
field-wise: in the Python body each guard reads only the field it updates, so
the sequence of in-place mutations is equivalent to this simultaneous update,
with `updated` the disjunction of the per-field `changed` flags. -/
def update_fields (job : DownloadJob) (a : StatusUpdate) : DownloadJob × Bool :=
  let status := updOptStatus a.status job.status
  let sab := updNotNone a.sab_status job.sab_status
  let progress := updNotNone a.progress job.progress
  let time_remaining := updNotNone a.time_remaining job.time_remaining
  let message := updNotNone a.message job.message
  let content := updTruthyStr a.content_name job.content_name
  let completed := updNotNone a.completed_at job.completed_at
  let clean := updTruthyStr a.clean_name job.clean_name
  let thumb := updTruthyStr a.thumbnail_path job.thumbnail_path
  let staging := updTruthyStr a.staging_path job.staging_path
  let mag := updNotNone a.magazine_title job.magazine_title
  let icode := updNotNone a.issue_code job.issue_code
  let ilabel := updNotNone a.issue_label job.issue_label
  let iyear := updNotNone a.issue_year job.issue_year
  let imonth := updNotNone a.issue_month job.issue_month
  let inum := updNotNone a.issue_number job.issue_number
  let updated := status.2 || sab.2 || progress.2 || time_remaining.2 || message.2 ||
    content.2 || completed.2 || clean.2 || thumb.2 || staging.2 || mag.2 ||
    icode.2 || ilabel.2 || iyear.2 || imonth.2 || inum.2
  ({ job with
      status := status.1, sab_status := sab.1, progress := progress.1,
      time_remaining := time_remaining.1, message := message.1,
      content_name := content.1, completed_at := completed.1,
      clean_name := clean.1, thumbnail_path := thumb.1, staging_path := staging.1,
      magazine_title := mag.1, issue_code := icode.1, issue_label := ilabel.1,
      issue_year := iyear.1, issue_month := imonth.1, issue_number := inum.1 },
    updated)

/-- `services.update_download_job_status` on a single row: applies the guarded
field updates and, when anything changed, refreshes `last_seen` and
`updated_at` to `now`. -/
def update_download_job_status (job : DownloadJob) (a : StatusUpdate) (now : Int) :
    DownloadJob :=
  let core := update_fields job a
  if core.2 then { core.1 with last_seen := some now, updated_at := now } else core.1

/-- `services.mark_download_job_failed`. -/
def mark_download_job_failed (job : DownloadJob) (message : Option String) (now : Int) :
    DownloadJob :=
  update_download_job_status job
    { status := some "failed", sab_status := some "Failed", message := message } now

/-- Keyword arguments of `services.upsert_download_job`. -/
structure UpsertArgs where
  nzo_id : Option String := none
  title : Option String := none
  magazine_title : Option String := none
  link : Option String := none
  status : String := "pending"
  issue_code : Option String := none
  issue_label : Option String := none
  issue_year : Option Int := none
  issue_month : Option Int := none
  issue_number : Option Int := none
deriving Repr, DecidableEq

/-- The guarded field updates of the mutation branch of
`services.upsert_download_job`, written field-wise (each guard reads only the
field it updates), with the aggregated `changed` flag. -/
def upsert_fields (job : DownloadJob) (a : UpsertArgs) : DownloadJob × Bool :=
  let title := updTruthyStr a.title job.title
  let mag := updNotNone a.magazine_title job.magazine_title
  let link := updTruthyStr a.link job.link
  let status := updOptStatus (some a.status) job.status
  let icode := updNotNone a.issue_code job.issue_code
  let ilabel := updNotNone a.issue_label job.issue_label
  let iyear := updNotNone a.issue_year job.issue_year
  let imonth := updNotNone a.issue_month job.issue_month
  let inum := updNotNone a.issue_number job.issue_number
  let changed := title.2 || mag.2 || link.2 || status.2 || icode.2 || ilabel.2 ||
    iyear.2 || imonth.2 || inum.2
  ({ job with
      title := title.1, magazine_title := mag.1, link := link.1, status := status.1,
      issue_code := icode.1, issue_label := ilabel.1, issue_year := iyear.1,
      issue_month := imonth.1, issue_number := inum.1 },
    changed)

/-- The mutation branch of `services.upsert_download_job` on an existing row:
`last_seen` is not touched; `updated_at` is refreshed only when some field
changed. -/
def upsert_apply (job : DownloadJob) (a : UpsertArgs) (now : Int) : DownloadJob :=
  let core := upsert_fields job a
  if core.2 then { core.1 with updated_at := now } else core.1

/-- Fresh primary key for an inserted row (autoincrement). -/
def nextId (db : JobDB) : Nat :=
  db.foldl (fun m j => max m (j.id + 1)) 1

/-- `services.upsert_download_job`: look up by external id (when truthy),
insert a new row when absent, otherwise mutate only changed fields. Returns
the new database and the affected row. -/
def upsert_download_job (db : JobDB) (a : UpsertArgs) (now : Int) :
    JobDB × DownloadJob :=
  let existing : Option DownloadJob :=
    match a.nzo_id with
    | some s => if s ≠ "" then get_download_job_by_nzo db s else none
    | none => none
  match existing with
  | none =>
    let job : DownloadJob :=
      { id := nextId db, sabnzbd_id := a.nzo_id, title := a.title,
        magazine_title := a.magazine_title, link := a.link, status := a.status,
        content_name := none, sab_status := none, progress := none,
        time_remaining := none, message := none, clean_name := none,
        thumbnail_path := none, staging_path := none,
        issue_code := a.issue_code, issue_label := a.issue_label,
        issue_year := a.issue_year, issue_month := a.issue_month,
        issue_number := a.issue_number, last_seen := none,
        created_at := now, updated_at := now, completed_at := none,
        moved_at := none }
    (db ++ [job], job)
  | some job =>
    let j := upsert_apply job a now
    (db.map (fun r => if r.id = job.id then j else r), j)

/-- An import destination path, reduced to the parts the services read:
its printable form, final component name, stem, and whether it is a file. -/
structure Dest where
  pathStr : String
  name : String
  stem : String
  isFile : Bool
deriving Repr, DecidableEq

/-- `services.mark_download_job_moved` on a single row. -/
def mark_download_job_moved (job : DownloadJob) (destination : Dest) (now : Int) :
    DownloadJob :=
  { job with
      status := "moved",
      sab_status := some "Processed",
      moved_at := some now,
      updated_at := now,
      message := some ("Moved to " ++ destination.pathStr),
      clean_name := some (if destination.isFile then destination.stem else destination.name),
      staging_path := none }

/-- `services.find_download_job_for_entry`: first row in the five matchable
statuses whose clean name, content name or title matches the entry exactly or
by path stem (case-insensitive). -/
def find_download_job_for_entry (db : JobDB) (entryName : String) : Option DownloadJob :=
  let entry_name := pyTrim entryName
  let normalized_entry := pyLower entry_name
  let candidates := db.filter (fun j =>
    decide (j.status ∈ ["pending", "queued", "downloading", "processing", "completed"]))
  candidates.find? (fun c =>
    let targets := [c.clean_name.getD "", c.content_name.getD "", c.title.getD ""]
    targets.any (fun target =>
      let compare := pyLower (pyTrim target)
      (compare ≠ "" && compare == normalized_entry) ||
      (compare ≠ "" && pathStem compare == pathStem normalized_entry)) ||
    (match c.title with
     | some t => t ≠ "" && pyLower (pathStem t) == pyLower (pathStem entry_name)
     | none => false))

/-! ## Download Status Tracker (`download_tracker.py`) -/

/-- `sabnzbd.SabnzbdQueueItem`. -/
structure SabnzbdQueueItem where
  nzo_id : Option String
  filename : Option String
  status : Option String
  percentage : Option Rat
  timeleft : Option String
deriving Repr, DecidableEq

/-- `sabnzbd.SabnzbdHistoryItem`. -/
structure SabnzbdHistoryItem where
  nzo_id : Option String
  name : Option String
  status : Option String
  completed : Option Int
  fail_message : Option String
deriving Repr, DecidableEq

/-- `DownloadTracker._map_queue_status`: substring rules over the lowered raw
status; a missing or empty raw status maps to "queued". -/
def map_queue_status : Option String → String
  | none => "queued"
  | some s =>
    if s = "" then "queued"
    else
      let value := pyLower s
      if pyContains value "down" then "downloading"
      else if pyContains value "post" || pyContains value "check" || pyContains value "extract" then "processing"
      else if pyContains value "pause" then "paused"
      else if pyContains value "queued" || pyContains value "waiting" then "queued"
      else replaceChar value ' ' '_'

/-- `DownloadTracker._map_history_status`: a missing or empty raw status maps
to "completed". -/
def map_history_status : Option String → String
  | none => "completed"
  | some s =>
    if s = "" then "completed"
    else
      let value := pyLower s
      if value = "completed" then "completed"
      else if value = "failed" ∨ value = "failure" then "failed"
      else replaceChar value ' ' '_'

/-- The queue branch of `DownloadTracker._sync_once` for one job found in the
queue snapshot. -/
def apply_queue_item (job : DownloadJob) (q : SabnzbdQueueItem) (now : Int) :
    DownloadJob :=
  let status := map_queue_status q.status
  -- message = queue_item.timeleft or job.message
  let message := if optStrTruthy q.timeleft then q.timeleft else job.message
  let message :=
    if (status = "queued" ∨ status = "downloading") ∧ optStrTruthy q.timeleft then
      some (q.timeleft.getD "" ++ " remaining")
    else message
  update_download_job_status job
    { status := some status, sab_status := q.status, progress := q.percentage,
      time_remaining := q.timeleft, message := message,
      content_name := q.filename } now

/-- The history branch of `DownloadTracker._sync_once` for one job found only
in the history snapshot: a completed entry has its message forced to the
awaiting-import text and its progress forced to 100. -/
def apply_history_item (job : DownloadJob) (h : SabnzbdHistoryItem) (now : Int) :
    DownloadJob :=
  let status := map_history_status h.status
  let message := if status = "completed" then some "Awaiting import into library"
    else h.fail_message
  update_download_job_status job
    { status := some status, sab_status := h.status,
      progress := if status = "completed" then some 100 else job.progress,
      time_remaining := none, message := message, content_name := h.name,
      completed_at := h.completed } now

/-- `{item.nzo_id: item for item in queue_items if item.nzo_id}` followed by
`.get(key)`: the last snapshot item carrying that truthy external id. -/
def buildQueueMap (items : List SabnzbdQueueItem) (key : String) :
    Option SabnzbdQueueItem :=
  (items.filter (fun i => i.nzo_id == some key && key != "")).getLast?

def buildHistoryMap (items : List SabnzbdHistoryItem) (key : String) :
    Option SabnzbdHistoryItem :=
  (items.filter (fun i => i.nzo_id == some key && key != "")).getLast?

/-- Reconciliation of one active job against the two snapshots: queue presence
takes precedence over history presence; absent from both leaves the job
untouched. -/
def sync_job (queue_map : String → Option SabnzbdQueueItem)
    (history_map : String → Option SabnzbdHistoryItem) (now : Int)
    (job : DownloadJob) : DownloadJob :=
  match job.sabnzbd_id with
  | none => job
  | some nzo =>
    if nzo = "" then job  -- `if not nzo_id: continue`
    else
      match queue_map nzo with
      | some q => apply_queue_item job q now
      | none =>
        match history_map nzo with
        | some h => apply_history_item job h now
        | none => job

/-- The reconciliation phase of `DownloadTracker._sync_once`: every job in the
active listing is synced (each row-local, so the loop is a map); terminal rows
are not in the listing and stay untouched. -/
def sync_reconcile (db : JobDB) (queue_map : String → Option SabnzbdQueueItem)
    (history_map : String → Option SabnzbdHistoryItem) (now : Int) : JobDB :=
  db.map (fun job =>
    if job.status ≠ "failed" ∧ job.status ≠ "moved" then
      sync_job queue_map history_map now job
    else job)

/-- The app-config fields read by `DownloadTracker._auto_fail_jobs`, with the
`get_settings().auto_fail_minutes` fallback inlined. Minutes are integers here
(the claims only involve whole-minute thresholds; no float arithmetic is
performed on them beyond scaling to a timedelta). -/
structure AutoFailConfig where
  auto_fail_enabled : Bool := false
  auto_fail_minutes : Option Int := none
  settings_auto_fail_minutes : Int := 0
deriving Repr, DecidableEq

/-- `app_config.auto_fail_minutes or get_settings().auto_fail_minutes`
(Python truthiness: both `None` and `0` fall back to the settings value). -/
def threshold_minutes (cfg : AutoFailConfig) : Int :=
  match cfg.auto_fail_minutes with
  | some m => if m ≠ 0 then m else cfg.settings_auto_fail_minutes
  | none => cfg.settings_auto_fail_minutes

def watched_statuses : List String :=
  ["pending", "queued", "downloading", "processing", "paused"]

def auto_fail_message (m : Int) : String :=
  "Auto-failed after " ++ toString m ++ "m without SABnzbd progress."

/-- `DownloadTracker._auto_fail_jobs`: when enabled with a positive threshold,
every active job in a watched status whose reference timestamp —
`job.last_seen or job.updated_at or job.created_at`, i.e. `last_seen` when
present, else `updated_at` (`created_at` is unreachable because `updated_at`
is non-nullable and datetimes are always truthy) — is at least
`threshold_minutes` minutes old is marked failed. -/
def auto_fail_sweep (db : JobDB) (cfg : AutoFailConfig) (now : Int) : JobDB :=
  if cfg.auto_fail_enabled = false then db
  else
    let tm := threshold_minutes cfg
    if tm ≤ 0 then db
    else
      db.map (fun job =>
        if job.status = "failed" ∨ job.status = "moved" then job
        else if job.status ∉ watched_statuses then job
        else
          let reference := match job.last_seen with
            | some t => t
            | none => job.updated_at
          if now - reference < tm * 60 then job
          else mark_download_job_failed job (some (auto_fail_message tm)) now)

/-- One database-level cycle of `DownloadTracker._sync_once` given the two
engine snapshots: reconciliation, then the auto-fail sweep. -/
def tracker_sync_once (db : JobDB) (queue_items : List SabnzbdQueueItem)
    (history_items : List SabnzbdHistoryItem) (cfg : AutoFailConfig)
    (now : Int) : JobDB :=
  let db := sync_reconcile db (buildQueueMap queue_items) (buildHistoryMap history_items) now
  auto_fail_sweep db cfg now

/-! ## Completion Monitor (`download_monitor.py`) -/

/-- `DownloadMonitor._record_move`: re-fetch the row by id and record the
moved transition; a vanished row changes nothing. -/
def record_move (db : JobDB) (job_id : Nat) (destination : Dest) (now : Int) : JobDB :=
  match db.find? (fun j => j.id = job_id) with
  | none => db
  | some job => db.map (fun r =>
      if r.id = job.id then mark_download_job_moved job destination now else r)

/-- `DownloadMonitor._move_entry` at the database level. The filesystem
relocation and the import collaborator are abstracted into `importResult`:
`none` means the staging move or import raised (caught and logged, no state
change); `some dest` is the final destination the import returned. The `Bool`
records whether a relocation/import was attempted at all. -/
def move_entry (db : JobDB) (entryName : String) (importResult : Option Dest)
    (now : Int) : JobDB × Bool :=
  match find_download_job_for_entry db entryName with
  | none => (db, false)
  | some job =>
    if job.status ∉ ["completed", "processing"] then (db, false)
    else
      match importResult with
      | none => (db, true)
      | some dest => (record_move db job.id dest now, true)

/-! ## Auto-Download Scheduler: candidate selection (`auto_downloader.py`) -/

/-- `auto_downloader.ACTIVE_JOB_STATUSES`. -/
def ACTIVE_JOB_STATUSES : List String :=
  ["pending", "queued", "downloading", "processing", "completed", "moved"]

/-- `schemas.SearchResult`, reduced to the fields the selector reads. -/
structure SearchResult where
  provider : String := ""
  title : String := ""
  link : String := ""
  magazine_title : Option String := none
  issue_code : Option String := none
  issue_label : Option String := none
  issue_year : Option Int := none
  issue_month : Option Int := none
  issue_number : Option Int := none
deriving Repr, DecidableEq

/-- `auto_downloader.IssueState`: one dedup bucket. -/
structure IssueState where
  active : Bool := false
  links : List String := []
deriving Repr, DecidableEq

/-- `auto_downloader.MagazineGuard`. `tokens` is the required-token set
(membership-only use, so a list models it). -/
structure MagazineGuard where
  min_year : Option Int := none
  min_issue : Option Int := none
  tokens : List String := []
deriving Repr, DecidableEq

/-- `auto_downloader._normalize_text`: lower alphanumerics/whitespace, blank
out everything else, collapse whitespace. -/
def normalize_text (value : String) : String :=
  let cleaned := String.join (value.data.map (fun ch =>
    if ch.isAlphanum ∨ ch.isWhitespace then String.singleton ch.toLower else " "))
  String.intercalate " " (pySplitWS cleaned)

def STOP_WORDS : List String := ["mag", "magazine", "ebook", "digital", "issue", "revista"]

/-- `auto_downloader._extract_title_tokens`: normalized tokens of length ≥ 3
minus the stop words (a set; first-occurrence dedup models it). -/
def extract_title_tokens (title : String) : List String :=
  ((pySplitWS (normalize_text title)).filter
    (fun token => 3 ≤ token.length ∧ token ∉ STOP_WORDS)).eraseDups

/-- The required-token clause of `AutoDownloader._passes_guard`: with a
non-empty token set the candidate title must normalize to a non-empty token
set containing every required token. -/
def guard_token_check (result : SearchResult) (guard : MagazineGuard) : Bool :=
  if guard.tokens ≠ [] then
    let normalized_title_tokens := pySplitWS (normalize_text result.title)
    if normalized_title_tokens = [] then false
    else guard.tokens.all (fun token => token ∈ normalized_title_tokens)
  else true

/-- `AutoDownloader._passes_guard`, with the original early returns: a
strictly later year (or an equal year when no minimum issue is configured)
returns `true` before the token clause is reached. -/
def passes_guard (result : SearchResult) (guard : MagazineGuard) : Bool :=
  if guard.min_year = none ∧ guard.min_issue = none ∧ guard.tokens = [] then true
  else
    match guard.min_year with
    | some my =>
      match result.issue_year with
      | none => false
      | some iy =>
        if iy < my then false
        else if my < iy then true
        else
          match guard.min_issue with
          | none => true
          | some mi =>
            match result.issue_number with
            | none => false
            | some n => if n < mi then false else guard_token_check result guard
    | none =>
      match guard.min_issue with
      | some mi =>
        match result.issue_number with
        | none => false
        | some n => if n < mi then false else guard_token_check result guard
      | none => guard_token_check result guard

/-- `auto_downloader._issue_identifier`. -/
def issue_identifier (magazine_title : Option String) (issue_code : Option String)
    (issue_year issue_month issue_number : Option Int)
    (fallback_title : Option String) : Option String :=
  if optStrTruthy magazine_title = false then none
  else
    let key_head := pyLower (pyTrim (magazine_title.getD ""))
    if optStrTruthy issue_code then some (key_head ++ "::code::" ++ issue_code.getD "")
    else
      let parts : List String :=
        (match issue_year with | some y => ["Y" ++ intPad 4 y] | none => []) ++
        (match issue_month with | some m => ["M" ++ intPad 2 m] | none => []) ++
        (match issue_number with | some n => ["N" ++ intPad 4 n] | none => [])
      if parts ≠ [] then some (key_head ++ "::" ++ String.intercalate "-" parts)
      else if optStrTruthy fallback_title then
        some (key_head ++ "::title::" ++ pyLower (pyTrim (fallback_title.getD "")))
      else none

/-- Identity key of a search result, as `_select_candidates` derives it. -/
def result_issue_key (result : SearchResult) : Option String :=
  issue_identifier result.magazine_title result.issue_code result.issue_year
    result.issue_month result.issue_number (some result.title)

/-- One iteration of the `_select_candidates` loop body: `none` when the
candidate is skipped, `some key` when it is accepted. The in-memory job index
is consulted but never written here. -/
def candidate_key (job_index : List (String × IssueState))
    (guards : List (String × MagazineGuard)) (result : SearchResult) :
    Option String :=
  let magazine := pyTrim (result.magazine_title.getD "")
  if magazine = "" then none
  else
    let magazine_key := pyLower magazine
    let skip_guard : Bool := match guards.lookup magazine_key with
      | some g => !(passes_guard result g)
      | none => false
    if skip_guard then none
    else
      match result_issue_key result with
      | none => none
      | some issue_key =>
        match job_index.lookup issue_key with
        | some bucket =>
          if bucket.active then none
          else if result.link ∈ bucket.links then none
          else some issue_key
        | none => some issue_key

/-- The `_select_candidates` loop with its count-based cap
(`if len(selections) >= max_per_scan: break`). -/
def select_go (job_index : List (String × IssueState))
    (guards : List (String × MagazineGuard)) (max_per : Nat) (count : Nat) :
    List SearchResult → List (String × SearchResult)
  | [] => []
  | result :: rest =>
    if max_per ≤ count then []
    else
      match candidate_key job_index guards result with
      | none => select_go job_index guards max_per count rest
      | some key => (key, result) :: select_go job_index guards max_per (count + 1) rest

/-- `AutoDownloader._select_candidates` with
`max_per_scan = max(1, config.max_results_per_scan)`. -/
def select_candidates (results : List SearchResult)
    (job_index : List (String × IssueState))
    (guards : List (String × MagazineGuard)) (max_results_per_scan : Nat) :
    List (String × SearchResult) :=
  select_go job_index guards (max 1 max_results_per_scan) 0 results

/-! ## Issue Identity Parser (`issue_parser.py`)

The Python module reads `datetime.datetime.utcnow().year` inside
`check_year`; that ambient dependence is made explicit as the `cy`
("current year") argument threaded through every function. -/

/-- `unaccented`: NFD-normalize and drop combining marks. Modelled per
character for the Latin-1 accented letters (which cover the month table and
ASCII inputs; other characters have no decomposition applied here). -/
def unaccent_pairs : List (Char × Char) :=
  [('À', 'A'), ('Á', 'A'), ('Â', 'A'), ('Ã', 'A'), ('Ä', 'A'), ('Å', 'A'),
   ('à', 'a'), ('á', 'a'), ('â', 'a'), ('ã', 'a'), ('ä', 'a'), ('å', 'a'),
   ('Ç', 'C'), ('ç', 'c'),
   ('È', 'E'), ('É', 'E'), ('Ê', 'E'), ('Ë', 'E'),
   ('è', 'e'), ('é', 'e'), ('ê', 'e'), ('ë', 'e'),
   ('Ì', 'I'), ('Í', 'I'), ('Î', 'I'), ('Ï', 'I'),
   ('ì', 'i'), ('í', 'i'), ('î', 'i'), ('ï', 'i'),
   ('Ñ', 'N'), ('ñ', 'n'),
   ('Ò', 'O'), ('Ó', 'O'), ('Ô', 'O'), ('Õ', 'O'), ('Ö', 'O'),
   ('ò', 'o'), ('ó', 'o'), ('ô', 'o'), ('õ', 'o'), ('ö', 'o'),
   ('Ù', 'U'), ('Ú', 'U'), ('Û', 'U'), ('Ü', 'U'),
   ('ù', 'u'), ('ú', 'u'), ('û', 'u'), ('ü', 'u'),
   ('Ý', 'Y'), ('ý', 'y'), ('ÿ', 'y')]

def unaccentedChar (c : Char) : Char := (unaccent_pairs.lookup c).getD c

def unaccented (s : String) : String := String.mk (s.data.map unaccentedChar)

/-- `_BASE_MONTH_TABLE` (`MONTH_TABLE[0]`). -/
def base_month_table : List (List String) :=
  [["en_GB.UTF-8", "en_GB.UTF-8", "es_ES.UTF8", "es_ES.UTF8", "de_DE.UTF8", "de_DE.UTF8"],
   ["January", "Jan", "enero", "ene", "Januar", "Jan"],
   ["February", "Feb", "febrero", "feb", "Februar", "Feb"],
   ["March", "Mar", "marzo", "mar", "März", "Mär"],
   ["April", "Apr", "abril", "abr", "April", "Apr"],
   ["May", "May", "mayo", "may", "Mai", "Mai"],
   ["June", "Jun", "junio", "jun", "Juni", "Jun"],
   ["July", "Jul", "julio", "jul", "Juli", "Jul"],
   ["August", "Aug", "agosto", "ago", "August", "Aug"],
   ["September", "Sep", "septiembre", "sep", "September", "Sep"],
   ["October", "Oct", "octubre", "oct", "Oktober", "Okt"],
   ["November", "Nov", "noviembre", "nov", "November", "Nov"],
   ["December", "Dec", "diciembre", "dic", "Dezember", "Dez"]]

/-- `_build_clean_table` (`MONTH_TABLE[1]`): unaccent, lower, strip dots. -/
def clean_month_table : List (List String) :=
  base_month_table.map (fun row => row.map (fun item => stripDots (pyLower (unaccented item))))

def SEASONS : List (String × Int) :=
  [("spring", 3), ("summer", 6), ("autumn", 9), ("fall", 9), ("winter", 12)]

def ISSUE_NOUNS : List String := ["issue", "iss", "no", "nr", "number", "#"]
def VOLUME_NOUNS : List String := ["vol", "volume", "vol."]

/-- `check_year`, with `datetime.datetime.utcnow().year` as the explicit `cy`
argument: an all-digit token in `1900 .. cy + 1`, else 0. -/
def check_year (cy : Int) (val : String) : Int :=
  if pyIsDigitStr val then
    let year := digitsToInt val
    if 1900 ≤ year ∧ year ≤ cy + 1 then year else 0
  else 0

/-- `month2num`: first table row matched by name (raw case-insensitive
equality or cleaned equality), else the season table, else 0. -/
def month2num (month : String) : Int :=
  let clean := pyLower (unaccented month)
  match (List.range' 1 12).find? (fun idx =>
    (base_month_table.getD idx []).any (fun name => pyLower month == pyLower name) ||
    (clean_month_table.getD idx []).any (fun name => clean == name)) with
  | some idx => (idx : Int)
  | none => (SEASONS.lookup clean).getD 0

/-- `two_months`: month index starting the word and month index ending it
(0,0 when absent or identical). -/
def two_months (word : String) : Int × Int :=
  let cleanword := pyLower (unaccented word)
  let a := match (List.range' 1 12).find? (fun f =>
      (base_month_table.getD f []).any (fun m => pyStartsWith word m) ||
      (clean_month_table.getD f []).any (fun m => pyStartsWith cleanword m)) with
    | some f => (f : Int)
    | none => 0
  if a = 0 then (0, 0)
  else
    let b := match (List.range' 1 12).find? (fun f =>
        (base_month_table.getD f []).any (fun m => pyEndsWith word m) ||
        (clean_month_table.getD f []).any (fun m => pyEndsWith cleanword m)) with
      | some f => (f : Int)
      | none => 0
    if a = b then (0, 0) else (a, b)

/-- The tokenizing `replace_all(title, dic)` of `get_dateparts`. The Python
dict replaces one character per stage and no stage's output contains a
character a later stage replaces, so the sequential replacement equals this
per-character map. -/
def tokenize_replace (s : String) : String :=
  String.join (s.data.map (fun c =>
    if c = '.' ∨ c = '-' ∨ c = '/' ∨ c = '+' ∨ c = '_' ∨ c = '[' ∨ c = ']' then " "
    else if c = '(' ∨ c = ')' then ""
    else if c = '#' then "# "
    else String.singleton c))

/-- The mutable locals of the first scanning loop of `get_dateparts`. -/
structure ParseState where
  year : Int := 0
  months : List Int := []
  day : Int := 0
  issue : Int := 0
  volume : Int := 0
  style : Int := 0
  month : Int := 0
  mname : String := ""
  inoun : String := ""
  vnoun : String := ""
deriving Repr, DecidableEq

/-- First loop of `get_dateparts`: year/month/double-month scan with
issue/volume nouns consuming the following token. -/
def pass1 (cy : Int) : List String → ParseState → ParseState
  | [], st => st
  | w :: rest, st =>
    let st := if st.year = 0 then { st with year := check_year cy w } else st
    let month_val := month2num w
    let st :=
      if month_val ≠ 0 then { st with mname := w, months := st.months ++ [month_val] }
      else
        let mm := two_months w
        if mm.1 ≠ 0 then { st with months := st.months ++ [mm.1, mm.2] } else st
    let lower_word := stripDots (pyLower w)
    if lower_word ∈ ISSUE_NOUNS then
      match rest with
      | next :: rest2 => pass1 cy rest2 { st with inoun := w, issue := check_int (some next) 0 }
      | [] => st
    else if lower_word ∈ VOLUME_NOUNS then
      match rest with
      | next :: rest2 => pass1 cy rest2 { st with vnoun := w, volume := check_int (some next) 0 }
      | [] => st
    else pass1 cy rest st

/-- Second loop of `get_dateparts`: numeric-run decoding of pure-digit
tokens (lengths 4, 6, 8, 12, and bare greater-than-2). -/
def pass2 (cy : Int) (st : ParseState) (words : List String) : ParseState :=
  words.foldl (fun st data =>
    if pyIsDigitStr data then
      if data.length = 4 ∧ check_year cy data ≠ 0 then { st with year := digitsToInt data }
      else if data.length = 6 then
        if check_year cy (strTake data 4) ≠ 0 then
          { st with year := digitsToInt (strTake data 4), issue := digitsToInt (strDrop data 4),
                    style := 13 }
        else if check_year cy (strDrop data 2) ≠ 0 then
          { st with year := digitsToInt (strDrop data 2), issue := digitsToInt (strTake data 2),
                    style := 13 }
        else st
      else if data.length = 8 then
        if check_year cy (strTake data 4) ≠ 0 then
          { st with year := digitsToInt (strTake data 4), issue := digitsToInt (strDrop data 4),
                    style := 16 }
        else
          { st with volume := digitsToInt (strTake data 4), issue := digitsToInt (strDrop data 4),
                    style := 17 }
      else if data.length = 12 then
        { st with year := digitsToInt (strTake data 4),
                  volume := digitsToInt (strTake (strDrop data 4) 4),
                  issue := digitsToInt (strDrop data 8), style := 18 }
      else if 2 < data.length then { st with issue := digitsToInt data }
      else st
    else st) st

/-- The `dateparts` dictionary. -/
structure DateParts where
  year : Int := 0
  months : List Int := []
  day : Int := 0
  issue : Int := 0
  volume : Int := 0
  month : Int := 0
  mname : String := ""
  inoun : String := ""
  vnoun : String := ""
  style : Int := 0
  dbdate : Option String := none
deriving Repr, DecidableEq

/-- Python `datetime.date(year, month, day)` constructibility. -/
def isLeapYear (y : Int) : Bool := y % 4 = 0 ∧ (y % 100 ≠ 0 ∨ y % 400 = 0)

def daysInMonth (y m : Int) : Int :=
  if m = 2 then (if isLeapYear y then 29 else 28)
  else if m = 4 ∨ m = 6 ∨ m = 9 ∨ m = 11 then 30
  else 31

def isValidDate (y m day : Int) : Bool :=
  1 ≤ y ∧ y ≤ 9999 ∧ 1 ≤ m ∧ m ≤ 12 ∧ 1 ≤ day ∧ day ≤ daysInMonth y m

/-- Style cascade (a): `<day> <month> <year>` with an optional issue/volume
noun two tokens back; breaks on the first match. `pos`-indexed loop with fuel
(the list length) for termination. -/
def cascadeA (cy : Int) (datetype : String) (words : List String) :
    Nat → Nat → DateParts → DateParts
  | _, 0, d => d
  | pos, fuel + 1, d =>
    if pos < words.length then
      let yearv := check_year cy (words.getD pos "")
      if yearv ≠ 0 ∧ pos ≠ 0 then
        let month := month2num (words.getD (pos - 1) "")
        if month ≠ 0 then
          if 1 < pos then
            let day := check_int (some (digitsOnly (words.getD (pos - 2) ""))) 0
            if 2 < pos ∧ stripDots (pyLower (words.getD (pos - 3) "")) ∈ ISSUE_NOUNS then
              { d with issue := day, inoun := words.getD (pos - 3) "", style := 10 }
            else if 2 < pos ∧ stripDots (pyLower (words.getD (pos - 3) "")) ∈ VOLUME_NOUNS then
              { d with volume := day, vnoun := words.getD (pos - 3) "", style := 10 }
            else if 31 < day then
              if pyContains datetype "I" then { d with issue := day, style := 10 }
              else if pyContains datetype "V" then { d with volume := day, style := 10 }
              else { d with issue := day, style := 2 }
            else if day ≠ 0 then { d with style := 3, day := day }
            else { d with style := 4, day := 1 }
          else { d with style := 4, day := 1 }
        else cascadeA cy datetype words (pos + 1) fuel d
      else cascadeA cy datetype words (pos + 1) fuel d
    else d

/-- Style cascade (b): `<month> <day> <year>` validated by constructing a
real calendar date; breaks on the first valid match. -/
def cascadeB (cy : Int) (words : List String) : Nat → Nat → DateParts → DateParts
  | _, 0, d => d
  | pos, fuel + 1, d =>
    if pos < words.length then
      let yearv := check_year cy (words.getD pos "")
      if yearv ≠ 0 ∧ 1 < pos then
        let month := month2num (words.getD (pos - 2) "")
        if month ≠ 0 then
          let day := check_int (some (digitsOnly (words.getD (pos - 1) ""))) 0
          if isValidDate yearv month day then
            { d with year := yearv, month := month,
                     months := if d.months = [] then d.months ++ [month] else d.months,
                     day := day, style := 5 }
          else cascadeB cy words (pos + 1) fuel d
        else cascadeB cy words (pos + 1) fuel d
      else cascadeB cy words (pos + 1) fuel d
    else d

/-- Style cascade (c): `<year> <month> <day>`; does not break, an invalid
built date resets the style to 0 and scanning continues. -/
def cascadeC (cy : Int) (words : List String) : Nat → Nat → DateParts → DateParts
  | _, 0, d => d
  | pos, fuel + 1, d =>
    if pos < words.length then
      let d2 :=
        let yearv := check_year cy (words.getD pos "")
        if yearv ≠ 0 ∧ pos + 1 < words.length then
          let month0 := month2num (words.getD (pos + 1) "")
          let month := if month0 = 0 then
              (let mi := check_int (some (words.getD (pos + 1) "")) 0
               if 12 < mi then 0 else mi)
            else month0
          if month ≠ 0 then
            let dayStyle : Int × Int :=
              if pos + 2 < words.length then
                let dv := check_int (some (digitsOnly (words.getD (pos + 2) ""))) 0
                if dv ≠ 0 then (dv, 6) else (1, 7)
              else (1, 7)
            if isValidDate yearv month dayStyle.1 then
              { d with year := yearv, month := month,
                       months := if d.months = [] then d.months ++ [month] else d.months,
                       day := dayStyle.1, style := dayStyle.2 }
            else { d with style := 0 }
          else d
        else d
      cascadeC cy words (pos + 1) fuel d2
    else d

/-- Leading non-digit run of a lowered word: `re.split(r"(\d+)", w)[0]`. -/
def leadingNonDigits (w : String) : String :=
  String.mk (w.data.takeWhile (fun c => !c.isDigit))

/-- First digit run of a word: `re.split(r"(\d+)", w)[1]` when the word
contains a digit ("" otherwise). -/
def firstDigitRun (w : String) : String :=
  String.mk ((w.data.dropWhile (fun c => !c.isDigit)).takeWhile Char.isDigit)

/-- Style cascade (d): issue/volume noun directly adjacent to a number,
including the dotted `YY.N` form; breaks on the first match. -/
def cascadeD (words : List String) : Nat → Nat → DateParts → DateParts
  | _, 0, d => d
  | pos, fuel + 1, d =>
    if pos < words.length then
      let w := pyLower (words.getD pos "")
      if stripDots (leadingNonDigits w) ∈ (ISSUE_NOUNS ++ VOLUME_NOUNS) then
        let run := firstDigitRun w
        let issue0 := if run ≠ "" then check_int (some run) 0 else 0
        if issue0 ≠ 0 then
          { d with issue := issue0, style := if d.year ≠ 0 then 10 else 11 }
        else if pos + 1 < words.length then
          let issue1 := check_int (some (words.getD (pos + 1) "")) 0
          if issue1 ≠ 0 then
            { d with issue := issue1, style := if d.year ≠ 0 then 10 else 11 }
          else
            let issue_token := words.getD (pos + 1) ""
            if (issue_token.data.filter (fun c => c = '.')).length = 1 ∧
                pyIsDigitStr (String.mk (issue_token.data.filter (fun c => c ≠ '.'))) then
              let parts := splitOnChar issue_token '.'
              let year_part := parts.getD 0 ""
              let issue_part := parts.getD 1 ""
              let year_part := if year_part.length = 2 then "20" ++ year_part else year_part
              let issue_part := if issue_part.length = 1 then "0" ++ issue_part else issue_part
              if year_part.length = 4 ∧ issue_part.length = 2 then
                { d with year := digitsToInt year_part, issue := digitsToInt issue_part,
                         style := 10 }
              else cascadeD words (pos + 1) fuel d
            else cascadeD words (pos + 1) fuel d
        else cascadeD words (pos + 1) fuel d
      else cascadeD words (pos + 1) fuel d
    else d

/-- Style cascade (e): bare `<number> <year>` (or `<year> <number>`)
adjacency interpreted as an issue number or a day/month pair; starts at
position 1 and breaks after the first year with an adjacent digit token. -/
def cascadeE (cy : Int) (words : List String) : Nat → Nat → DateParts → DateParts
  | _, 0, d => d
  | pos, fuel + 1, d =>
    if pos < words.length then
      if check_year cy (words.getD pos "") ≠ 0 then
        if pyIsDigitStr (words.getD (pos - 1) "") then
          let d2 :=
            if 1 < pos ∧ pyIsDigitStr (words.getD (pos - 2) "") then
              let m := digitsToInt (words.getD (pos - 1) "")
              let dd := digitsToInt (words.getD (pos - 2) "")
              let md : Int × Int := if m = 1 ∧ dd < 13 then (dd, 1) else (m, dd)
              if md.1 < 13 then { d with months := [md.1], day := md.2, style := 3 }
              else if md.2 < 13 then { d with months := [md.2], day := md.1, style := 3 }
              else d
            else d
          if d2.style = 0 then
            { d2 with issue := digitsToInt (words.getD (pos - 1) ""), style := 12 }
          else d2
        else if pos + 1 < words.length ∧ pyIsDigitStr (words.getD (pos + 1) "") then
          { d with issue := digitsToInt (words.getD (pos + 1) ""), style := 12 }
        else cascadeE cy words (pos + 1) fuel d
      else cascadeE cy words (pos + 1) fuel d
    else d

/-- The `datetype` filter block of `get_dateparts` (`datetype_ok`). -/
def datetype_ok_check (datetype : String) (d : DateParts) : Bool :=
  if datetype ≠ "" ∧ d.style ≠ 0 then
    let ok := true
    let ok := if pyContains datetype "M" ∧
        (d.style ∉ ([1, 2, 3, 4, 5, 6, 7, 12] : List Int) ∨ d.month = 0) then false else ok
    let ok := if pyContains datetype "D" ∧
        (d.style ∉ ([3, 5, 6] : List Int) ∨ d.day = 0) then false else ok
    let ok := if pyContains datetype "MM" ∧
        (d.style ∉ ([1] : List Int) ∨ d.months.length < 2) then false else ok
    let ok := if pyContains datetype "V" ∧
        (d.style ∉ ([2, 8, 9, 10, 11, 12, 13, 14, 17, 18] : List Int) ∨ d.volume = 0) then
        false else ok
    let ok := if pyContains datetype "I" ∧
        (d.style ∉ ([2, 10, 11, 12, 13, 14, 16, 17, 18] : List Int) ∨ d.issue = 0) then
        false else ok
    let ok := if pyContains datetype "Y" ∧
        (d.style ∉ ([1, 2, 3, 4, 5, 6, 7, 8, 10, 12, 13, 15, 16, 18] : List Int) ∨ d.year = 0) then
        false else ok
    ok
  else true

/-- The final `dbdate` computation of `get_dateparts`. Note the formatting
switch handles styles 14–18 but not 13, which therefore falls to the
date-shaped default branch. -/
def finalize_dbdate (datetype : String) (d : DateParts) : DateParts :=
  if datetype_ok_check datetype d = false then { d with style := 0 }
  else if d.issue ≠ 0 ∧ (pyContains datetype "I" ∨ d.inoun ≠ "") then
    let issuenum := intPad 4 d.issue
    let issuenum := if d.year ≠ 0 then toString d.year ++ issuenum else issuenum
    { d with dbdate := some issuenum }
  else
    let d := if d.day = 0 then { d with day := 1 } else d
    let issuenum :=
      if d.style = 14 then intPad 4 d.issue
      else if d.style = 15 then toString d.year
      else if d.style = 16 then toString d.year ++ intPad 4 d.issue
      else if d.style = 17 then intPad 4 d.volume ++ intPad 4 d.issue
      else if d.style = 18 then toString d.year ++ intPad 4 d.volume ++ intPad 4 d.issue
      else toString d.year ++ "-" ++ intPad 2 d.month ++ "-" ++ intPad 2 d.day
    { d with dbdate := some issuenum }

/-- The two scanning loops of `get_dateparts` plus the dedup/style-1/8/9
fixups between them, producing the initial `dateparts` dict. -/
def scan_words (cy : Int) (words : List String) : DateParts :=
  let st := pass1 cy words {}
  let months := dedupFirst st.months
  let st := { st with
    months := months,
    style := if 1 < months.length then 1 else st.style,
    month := if months ≠ [] then months.headD 0 else st.month }
  let st := if st.volume ≠ 0 ∧ st.issue ≠ 0 then
      { st with style := if st.year ≠ 0 then 8 else 9 } else st
  let st := pass2 cy st words
  { year := st.year, months := st.months, day := 0, issue := st.issue,
    volume := st.volume, month := st.month, mname := st.mname,
    inoun := st.inoun, vnoun := st.vnoun, style := st.style, dbdate := none }

/-- The fixed-priority style cascade of `get_dateparts`, each stage guarded
by the style still being unresolved. -/
def apply_cascades (cy : Int) (datetype : String) (words : List String)
    (d : DateParts) : DateParts :=
  let d := if d.style = 0 then cascadeA cy datetype words 0 words.length d else d
  let d := if d.style = 0 then cascadeB cy words 0 words.length d else d
  let d := if d.style = 0 then cascadeC cy words 0 words.length d else d
  let d := if d.style = 0 then cascadeD words 0 words.length d else d
  if d.style = 0 ∧ d.year ≠ 0 then cascadeE cy words 1 words.length d else d

/-- The month reassignment and the fallback styles 15/14 (plus the
`datetype == 'I'` single-number fallback) after the cascades. -/
def apply_default_styles (datetype : String) (words : List String)
    (d : DateParts) : DateParts :=
  let d := { d with month := if d.months ≠ [] then d.months.headD 0 else 0 }
  let d := if d.year ≠ 0 ∧ d.style = 0 then { d with style := 15 } else d
  let d := if d.issue ≠ 0 ∧ d.style = 0 then { d with style := 14 } else d
  if d.style = 0 ∧ datetype = "I" then
    (let numbers := words.filter (fun w => pyIsDigitStr w)
     if numbers.length = 1 then { d with issue := digitsToInt (numbers.headD ""), style := 14 }
     else d)
  else d

/-- `get_dateparts(title_or_issue, datetype, language)`: the full layout
resolution. The `language` argument is unused by the Python body (the month
table is static), so it is omitted. -/
def get_dateparts (cy : Int) (title_or_issue : String) (datetype : String) :
    Option DateParts :=
  let words := pySplitWS (tokenize_replace title_or_issue)
  let d := scan_words cy words
  let d := apply_cascades cy datetype words d
  let d := apply_default_styles datetype words d
  let d := finalize_dbdate datetype d
  if d.style ≠ 0 then some d else none

/-- Separators skipped after a matched magazine-name prefix. -/
def TITLE_SEPARATORS : List Char := [' ', '.', '-', '_', ':', '/', '\\', '|', '–', '—']

/-- The alnum-prefix matcher of `_strip_magazine_title`: walk the title,
matching its alphanumeric characters case-insensitively against the target;
`none` on mismatch or when the title runs out first. -/
def strip_title_go : List Char → List Char → Option (List Char)
  | rest, [] => some rest
  | [], _ :: _ => none
  | c :: rest, t :: ts =>
    if c.isAlphanum then
      if c.toLower = t then strip_title_go rest ts else none
    else strip_title_go rest (t :: ts)

/-- `_strip_magazine_title`. -/
def strip_magazine_title (title : String) (magazine_title : Option String) : String :=
  if optStrTruthy magazine_title = false then title
  else
    let target := ((magazine_title.getD "").data.filter Char.isAlphanum).map Char.toLower
    if target = [] then title
    else
      match strip_title_go title.data target with
      | none => title
      | some rest => String.mk (rest.dropWhile (fun c => c ∈ TITLE_SEPARATORS))

/-- `_month_name`: locale column chosen by the language code. -/
def month_name (m : Int) (language : String) : String :=
  if ¬(0 < m ∧ m < 13) then "Month " ++ toString m
  else
    let lang_code := pyLower ((splitOnChar language '_').headD "")
    let locales := base_month_table.getD 0 []
    let indices := (List.range locales.length).filter
      (fun i => pyStartsWith (pyLower (locales.getD i "")) lang_code)
    let idx := (if indices = [] then [0] else indices).headD 0
    let row := base_month_table.getD m.toNat []
    if idx < row.length then row.getD idx "" else row.getD 0 ""

/-- `_format_label`. -/
def format_label (d : DateParts) (language : String) : String :=
  if d.month ≠ 0 ∧ d.year ≠ 0 then
    if 1 < d.months.length then
      String.intercalate "/" (d.months.map (fun m => month_name m language)) ++
        " " ++ toString d.year
    else month_name d.month language ++ " " ++ toString d.year
  else
    let components :=
      (if d.volume ≠ 0 then ["Vol " ++ toString d.volume] else []) ++
      (if d.issue ≠ 0 then ["Issue " ++ toString d.issue] else []) ++
      (if d.year ≠ 0 then [toString d.year] else [])
    if components = [] then "Issue" else String.intercalate " " components

/-- `IssueMetadata`. The Python dataclass declares several fields Optional,
but `parse_issue` passes the dateparts dict's plain integers through (0 when
absent); only `issue_number` is converted to `None` on 0. -/
structure IssueMetadata where
  issue_code : String
  label : String
  year : Int
  month : Int
  day : Int
  issue_number : Option Int
  volume : Int
deriving Repr, DecidableEq

/-- `parse_issue(title, magazine_title, language)` with the current UTC year
explicit. -/
def parse_issue (cy : Int) (title : String) (magazine_title : Option String)
    (language : String) : Option IssueMetadata :=
  let stripped := strip_magazine_title title magazine_title
  match get_dateparts cy stripped "" with
  | none => none
  | some d =>
    match d.dbdate with
    | none => none
    | some dbdate =>
      if dbdate = "" then none
      else some
        { issue_code := dbdate,
          label := format_label d language,
          year := d.year, month := d.month, day := d.day,
          issue_number := if d.issue ≠ 0 then some d.issue else none,
          volume := d.volume }

/-! ## Concrete fixtures used by the claim theorems and counterexamples -/

/-- A baseline job row used (with field tweaks) by several fixtures. -/
def baseJob : DownloadJob :=
  { id := 1, sabnzbd_id := some "n1", title := some "T", magazine_title := none,
    link := none, content_name := some "file.pdf", status := "downloading",
    sab_status := some "Downloading", progress := some 50,
    time_remaining := some "5m", message := some "5m remaining",
    clean_name := none, thumbnail_path := none, staging_path := none,
    issue_code := none, issue_label := none, issue_year := none,
    issue_month := none, issue_number := none, last_seen := some 100,
    created_at := 50, updated_at := 100, completed_at := none, moved_at := none }

/-- C4: a job whose stored fields already equal everything the queue snapshot
would write. -/
def jobC4 : DownloadJob := baseJob

def queueItemC4 : SabnzbdQueueItem :=
  { nzo_id := some "n1", filename := some "file.pdf", status := some "Downloading",
    percentage := some 50, timeleft := some "5m" }

/-- C4: auto-fail disabled, so the cycle is pure reconciliation. -/
def cfgOffC4 : AutoFailConfig := {}

/-- C5: stale `last_seen` (0) but recent `updated_at` (1900). -/
def jobC5 : DownloadJob :=
  { baseJob with sabnzbd_id := some "nope", last_seen := some 0,
                 updated_at := 1900, created_at := 0 }

def cfgC5 : AutoFailConfig :=
  { auto_fail_enabled := true, auto_fail_minutes := some 30,
    settings_auto_fail_minutes := 30 }

/-- C5 witness fixtures. -/
def jobW5 : DownloadJob := { baseJob with last_seen := some 0, updated_at := 0 }

/-- C1: a terminal (failed) row holding external id "x1". -/
def jobC1 : DownloadJob := { baseJob with status := "failed", sabnzbd_id := some "x1" }

/-- C1: the upsert arguments the Scheduler issues for that same external id. -/
def argsC1 : UpsertArgs :=
  { nzo_id := some "x1", title := some "T2", magazine_title := some "M",
    link := some "L", status := "queued" }

/-- C1 witness fixture: a moved row. -/
def jobW1 : DownloadJob := { baseJob with status := "moved", sabnzbd_id := some "m1" }

/-- C2: two search results with distinct links resolving to the same
IssueIdentity. -/
def resultC2a : SearchResult :=
  { title := "Mag A 2024 06", link := "http://a/1", magazine_title := some "Mag A",
    issue_code := some "202406" }

def resultC2b : SearchResult :=
  { title := "Mag A 2024 06 alt", link := "http://a/2", magazine_title := some "Mag A",
    issue_code := some "202406" }

/-- C3: a guard with a minimum year and a required token. -/
def guardC3 : MagazineGuard := { min_year := some 2024, tokens := ["fernsehwoche"] }

/-- C3: a candidate from a strictly later year whose title lacks the
required token. -/
def resultC3 : SearchResult := { title := "Other Thing 2025", issue_year := some 2025 }

/-- C3 witness fixtures: equal year, minimum issue met. -/
def guardW3 : MagazineGuard :=
  { min_year := some 2024, min_issue := some 5, tokens := ["fernsehwoche"] }

def resultW3 : SearchResult :=
  { title := "Fernsehwoche 2024 06", issue_year := some 2024, issue_number := some 6 }

/-- C6: identical upsert arguments issued twice. -/
def argsC6 : UpsertArgs :=
  { nzo_id := some "z", title := some "T", link := some "L", status := "queued" }

def dbC6 : JobDB := (upsert_download_job [] argsC6 10).1

/-- C7 fixtures: a completed job matched by an entry name, and the final
destination the import collaborator returns. -/
def jobC7 : DownloadJob :=
  { baseJob with status := "completed", clean_name := some "entry.pdf" }

def destC7 : Dest :=
  { pathStr := "/library/Mag/entry.pdf", name := "entry.pdf", stem := "entry",
    isFile := true }

/-- C7: a pending job matched by the same entry name (deferral case is part
of the claim, exercised through the theorem's universal statement). -/
def jobC7pending : DownloadJob := { jobC7 with status := "pending" }

/-- C10 witness fixture: a history snapshot item with a missing raw status. -/
def histC10 : SabnzbdHistoryItem :=
  { nzo_id := some "n1", name := some "file.pdf", status := none,
    completed := some 300, fail_message := none }

/-! ## Helper lemmas about the guarded field updates -/

lemma updTruthyStr_snd_false {s c : Option String}
    (h : (updTruthyStr s c).2 = false) : (updTruthyStr s c).1 = c := by
  cases s with
  | none => rfl
  | some v =>
    by_cases hc : v ≠ "" ∧ c ≠ some v
    · simp [updTruthyStr, hc] at h
    · simp [updTruthyStr, hc]

lemma updNotNone_snd_false {α : Type} [DecidableEq α] {s c : Option α}
    (h : (updNotNone s c).2 = false) : (updNotNone s c).1 = c := by
  cases s with
  | none => rfl
  | some v =>
    by_cases hc : c ≠ some v
    · simp [updNotNone, hc] at h
    · simp [updNotNone, hc]

lemma updOptStatus_snd_false {s : Option String} {c : String}
    (h : (updOptStatus s c).2 = false) : (updOptStatus s c).1 = c := by
  cases s with
  | none => rfl
  | some v =>
    by_cases hc : v ≠ "" ∧ c ≠ v
    · simp [updOptStatus, hc] at h
    · simp [updOptStatus, hc]

lemma updTruthyStr_change {s c : Option String}
    (h : (updTruthyStr s c).1 ≠ c) :
    (updTruthyStr s c).1 = s ∧ optStrTruthy s = true := by
  cases s with
  | none => exact absurd rfl h
  | some v =>
    by_cases hc : v ≠ "" ∧ c ≠ some v
    · refine ⟨by simp [updTruthyStr, hc], ?_⟩
      simpa [optStrTruthy] using hc.1
    · exact absurd (by simp [updTruthyStr, hc]) h

lemma updNotNone_change {α : Type} [DecidableEq α] {s c : Option α}
    (h : (updNotNone s c).1 ≠ c) : (updNotNone s c).1 = s := by
  cases s with
  | none => exact absurd rfl h
  | some v =>
    by_cases hc : c ≠ some v
    · simp [updNotNone, hc]
    · exact absurd (by simp [updNotNone, hc]) h

lemma updOptStatus_change {v c : String}
    (h : (updOptStatus (some v) c).1 ≠ c) :
    (updOptStatus (some v) c).1 = v ∧ v ≠ "" := by
  by_cases hc : v ≠ "" ∧ c ≠ v
  · exact ⟨by simp [updOptStatus, hc], hc.1⟩
  · exact absurd (by simp [updOptStatus, hc]) h

lemma updOptStatus_some_fst {v : String} (c : String) (hv : v ≠ "") :
    (updOptStatus (some v) c).1 = v := by
  by_cases hc : c = v
  · have h2 : ¬(v ≠ "" ∧ c ≠ v) := by simp [hc]
    simp [updOptStatus, h2, hc]
  · simp [updOptStatus, hv, hc]

lemma updNotNone_some_fst {α : Type} [DecidableEq α] (v : α) (c : Option α) :
    (updNotNone (some v) c).1 = some v := by
  by_cases hc : c ≠ some v
  · simp [updNotNone, hc]
  · simp only [ne_eq, not_not] at hc
    simp [updNotNone, hc]

/-- If no guarded field fired, `update_fields` returns the row unchanged. -/
lemma update_fields_stay {j : DownloadJob} {a : StatusUpdate}
    (h : (update_fields j a).2 = false) : (update_fields j a).1 = j := by
  dsimp only [update_fields] at h ⊢
  simp only [Bool.or_eq_false_iff] at h
  obtain ⟨⟨⟨⟨⟨⟨⟨⟨⟨⟨⟨⟨⟨⟨⟨h1, h2⟩, h3⟩, h4⟩, h5⟩, h6⟩, h7⟩, h8⟩, h9⟩, h10⟩, h11⟩, h12⟩,
    h13⟩, h14⟩, h15⟩, h16⟩ := h
  rw [updOptStatus_snd_false h1, updNotNone_snd_false h2, updNotNone_snd_false h3,
    updNotNone_snd_false h4, updNotNone_snd_false h5, updTruthyStr_snd_false h6,
    updNotNone_snd_false h7, updTruthyStr_snd_false h8, updTruthyStr_snd_false h9,
    updTruthyStr_snd_false h10, updNotNone_snd_false h11, updNotNone_snd_false h12,
    updNotNone_snd_false h13, updNotNone_snd_false h14, updNotNone_snd_false h15,
    updNotNone_snd_false h16]

/-- `update_download_job_status` is the identity or refreshes both
timestamps. -/
lemma update_noop_or_refresh (j : DownloadJob) (a : StatusUpdate) (now : Int) :
    update_download_job_status j a now = j ∨
      ((update_download_job_status j a now).last_seen = some now ∧
       (update_download_job_status j a now).updated_at = now) := by
  by_cases h : (update_fields j a).2 = true
  · right
    simp [update_download_job_status, h]
  · left
    have h2 : (update_fields j a).2 = false := by simpa using h
    simp [update_download_job_status, h2, update_fields_stay h2]

lemma update_status_proj (j : DownloadJob) (a : StatusUpdate) (now : Int) :
    (update_download_job_status j a now).status = (updOptStatus a.status j.status).1 := by
  unfold update_download_job_status
  dsimp only
  split <;> rfl

lemma update_message_proj (j : DownloadJob) (a : StatusUpdate) (now : Int) :
    (update_download_job_status j a now).message = (updNotNone a.message j.message).1 := by
  unfold update_download_job_status
  dsimp only
  split <;> rfl

lemma update_progress_proj (j : DownloadJob) (a : StatusUpdate) (now : Int) :
    (update_download_job_status j a now).progress = (updNotNone a.progress j.progress).1 := by
  unfold update_download_job_status
  dsimp only
  split <;> rfl

/-- If no guarded field fired, `upsert_fields` returns the row unchanged. -/
lemma upsert_fields_stay {j : DownloadJob} {a : UpsertArgs}
    (h : (upsert_fields j a).2 = false) : (upsert_fields j a).1 = j := by
  dsimp only [upsert_fields] at h ⊢
  simp only [Bool.or_eq_false_iff] at h
  obtain ⟨⟨⟨⟨⟨⟨⟨⟨h1, h2⟩, h3⟩, h4⟩, h5⟩, h6⟩, h7⟩, h8⟩, h9⟩ := h
  rw [updTruthyStr_snd_false h1, updNotNone_snd_false h2, updTruthyStr_snd_false h3,
    updOptStatus_snd_false h4, updNotNone_snd_false h5, updNotNone_snd_false h6,
    updNotNone_snd_false h7, updNotNone_snd_false h8, updNotNone_snd_false h9]

lemma upsert_noop_or_refresh (j : DownloadJob) (a : UpsertArgs) (now : Int) :
    upsert_apply j a now = j ∨ (upsert_apply j a now).updated_at = now := by
  by_cases h : (upsert_fields j a).2 = true
  · right
    simp [upsert_apply, h]
  · left
    have h2 : (upsert_fields j a).2 = false := by simpa using h
    simp [upsert_apply, h2, upsert_fields_stay h2]

lemma upsert_title_proj (j : DownloadJob) (a : UpsertArgs) (now : Int) :
    (upsert_apply j a now).title = (updTruthyStr a.title j.title).1 := by
  unfold upsert_apply
  dsimp only
  split <;> rfl

lemma upsert_mag_proj (j : DownloadJob) (a : UpsertArgs) (now : Int) :
    (upsert_apply j a now).magazine_title = (updNotNone a.magazine_title j.magazine_title).1 := by
  unfold upsert_apply
  dsimp only
  split <;> rfl

lemma upsert_link_proj (j : DownloadJob) (a : UpsertArgs) (now : Int) :
    (upsert_apply j a now).link = (updTruthyStr a.link j.link).1 := by
  unfold upsert_apply
  dsimp only
  split <;> rfl

lemma upsert_status_proj (j : DownloadJob) (a : UpsertArgs) (now : Int) :
    (upsert_apply j a now).status = (updOptStatus (some a.status) j.status).1 := by
  unfold upsert_apply
  dsimp only
  split <;> rfl

lemma upsert_icode_proj (j : DownloadJob) (a : UpsertArgs) (now : Int) :
    (upsert_apply j a now).issue_code = (updNotNone a.issue_code j.issue_code).1 := by
  unfold upsert_apply
  dsimp only
  split <;> rfl

lemma upsert_ilabel_proj (j : DownloadJob) (a : UpsertArgs) (now : Int) :
    (upsert_apply j a now).issue_label = (updNotNone a.issue_label j.issue_label).1 := by
  unfold upsert_apply
  dsimp only
  split <;> rfl

lemma upsert_iyear_proj (j : DownloadJob) (a : UpsertArgs) (now : Int) :
    (upsert_apply j a now).issue_year = (updNotNone a.issue_year j.issue_year).1 := by
  unfold upsert_apply
  dsimp only
  split <;> rfl

lemma upsert_imonth_proj (j : DownloadJob) (a : UpsertArgs) (now : Int) :
    (upsert_apply j a now).issue_month = (updNotNone a.issue_month j.issue_month).1 := by
  unfold upsert_apply
  dsimp only
  split <;> rfl

lemma upsert_inum_proj (j : DownloadJob) (a : UpsertArgs) (now : Int) :
    (upsert_apply j a now).issue_number = (updNotNone a.issue_number j.issue_number).1 := by
  unfold upsert_apply
  dsimp only
  split <;> rfl

/-! ## Claim C4 -/

/-- C4 counterexample: a tracker cycle whose queue snapshot matches a
non-terminal job (external id "n1") but where every incoming field equals the
stored value leaves the job — `last_seen` included — completely unchanged, so
`last_seen` is not set to the current time (200) as the claim requires. -/
theorem C4_counterexample :
    tracker_sync_once [jobC4] [queueItemC4] [] cfgOffC4 200 = [jobC4] ∧
    jobC4.last_seen = some 100 ∧ some (100 : Int) ≠ some (200 : Int) ∧
    jobC4.sabnzbd_id = some "n1" ∧ queueItemC4.nzo_id = some "n1" ∧
    jobC4.status ≠ "failed" ∧ jobC4.status ≠ "moved" := by
  exact ⟨by decide, rfl, by decide, rfl, rfl, by decide, by decide⟩

/-- C4 (amended): during reconciliation a matched job is either left wholly
unchanged (when none of the incoming fields differ from the stored values) or
has `last_seen` (and `updated_at`) set to the current time; `last_seen` is
refreshed exactly when some field actually changed, not on every match. -/
theorem C4_last_seen_refresh_only_on_change (job : DownloadJob) (a : StatusUpdate)
    (q : SabnzbdQueueItem) (h : SabnzbdHistoryItem) (now : Int) :
    (update_download_job_status job a now = job ∨
      ((update_download_job_status job a now).last_seen = some now ∧
       (update_download_job_status job a now).updated_at = now)) ∧
    (apply_queue_item job q now = job ∨
      (apply_queue_item job q now).last_seen = some now) ∧
    (apply_history_item job h now = job ∨
      (apply_history_item job h now).last_seen = some now) := by
  refine ⟨update_noop_or_refresh job a now, ?_, ?_⟩
  · dsimp only [apply_queue_item]
    exact (update_noop_or_refresh job _ now).imp id And.left
  · dsimp only [apply_history_item]
    exact (update_noop_or_refresh job _ now).imp id And.left

/-! ## Claim C5 -/

/-- C5 counterexample: with a 30-minute threshold, a `downloading` job whose
most recent of `last_seen`/`updated_at`/`created_at` (its `updated_at`, 1900)
is well within the threshold at `now = 2000` is nevertheless auto-failed,
because the sweep reads `last_seen` (0, stale) with the others only as
fallbacks — not the maximum of the three. -/
theorem C5_counterexample :
    (auto_fail_sweep [jobC5] cfgC5 2000).map (fun j => j.status) = ["failed"] ∧
    jobC5.status = "downloading" ∧
    max (max (jobC5.last_seen.getD 0) jobC5.updated_at) jobC5.created_at = 1900 ∧
    (2000 : Int) - 1900 < threshold_minutes cfgC5 * 60 := by
  exact ⟨by decide, rfl, by decide, by decide⟩

/-- C5 (amended): when the sweep is enabled with a positive minute threshold,
a watched-status job transitions to `failed` with the generated message
exactly when its reference timestamp — `last_seen` when present, else
`updated_at` (the first present in that order, not the maximum of the
three) — is at least the threshold old. -/
theorem C5_auto_fail_by_coalesced_reference (job : DownloadJob)
    (cfg : AutoFailConfig) (now : Int)
    (hen : cfg.auto_fail_enabled = true)
    (hpos : 0 < threshold_minutes cfg)
    (hw : job.status ∈ watched_statuses) :
    auto_fail_sweep [job] cfg now =
      [if now - (job.last_seen.getD job.updated_at) < threshold_minutes cfg * 60
       then job
       else mark_download_job_failed job
         (some (auto_fail_message (threshold_minutes cfg))) now] ∧
    (mark_download_job_failed job
      (some (auto_fail_message (threshold_minutes cfg))) now).status = "failed" ∧
    (mark_download_job_failed job
      (some (auto_fail_message (threshold_minutes cfg))) now).message =
      some (auto_fail_message (threshold_minutes cfg)) := by
  have hterm1 : job.status ≠ "failed" := by
    intro hcon; rw [hcon] at hw; simp [watched_statuses] at hw
  have hterm2 : job.status ≠ "moved" := by
    intro hcon; rw [hcon] at hw; simp [watched_statuses] at hw
  refine ⟨?_, ?_, ?_⟩
  · simp only [auto_fail_sweep, hen]
    rw [if_neg (by simp), if_neg (not_le.mpr hpos)]
    simp only [List.map]
    rw [if_neg (by simp [hterm1, hterm2]), if_neg (by simp [hw])]
    cases job.last_seen <;> rfl
  · rw [mark_download_job_failed, update_status_proj]
    exact updOptStatus_some_fst _ (by decide)
  · rw [mark_download_job_failed, update_message_proj]
    exact updNotNone_some_fst _ _

/-- C5 witness: the amended theorem applied to a concrete stale job. -/
theorem C5_witness :
    (mark_download_job_failed jobW5
      (some (auto_fail_message (threshold_minutes cfgC5))) 2000).status = "failed" :=
  (C5_auto_fail_by_coalesced_reference jobW5 cfgC5 2000 rfl (by decide) (by decide)).2.1

/-! ## Claim C6 -/

/-- C6 counterexample: upserting identical arguments twice leaves the single
row's `updated_at` at its original value (10) on the second call at time 99 —
the second call does not refresh `updated_at` when nothing differs. -/
theorem C6_counterexample :
    (upsert_download_job dbC6 argsC6 99).1.map (fun j => j.updated_at) = [10] ∧
    (upsert_download_job dbC6 argsC6 99).1.length = dbC6.length ∧
    (10 : Int) ≠ 99 := by
  exact ⟨by decide, by decide, by decide⟩

/-- C6 (amended): upserting an external id that already has a row never
creates a second row; the second call mutates only fields whose supplied
values are present (and truthy where the code requires it) and differ from
the stored values, leaves `last_seen`/`created_at` alone, and refreshes
`updated_at` exactly when at least one field changed (identical supplied
values leave the row, `updated_at` included, untouched). -/
theorem C6_upsert_same_id_no_second_row (db : JobDB) (a : UpsertArgs) (now : Int)
    (s : String) (j : DownloadJob)
    (hs : a.nzo_id = some s) (hns : s ≠ "")
    (hfound : get_download_job_by_nzo db s = some j) :
    (upsert_download_job db a now).1.length = db.length ∧
    (upsert_download_job db a now).2 = upsert_apply j a now ∧
    (upsert_apply j a now = j ∨ (upsert_apply j a now).updated_at = now) ∧
    ((upsert_apply j a now).title ≠ j.title →
      (upsert_apply j a now).title = a.title ∧ optStrTruthy a.title = true) ∧
    ((upsert_apply j a now).magazine_title ≠ j.magazine_title →
      (upsert_apply j a now).magazine_title = a.magazine_title) ∧
    ((upsert_apply j a now).link ≠ j.link →
      (upsert_apply j a now).link = a.link ∧ optStrTruthy a.link = true) ∧
    ((upsert_apply j a now).status ≠ j.status →
      (upsert_apply j a now).status = a.status ∧ a.status ≠ "") ∧
    ((upsert_apply j a now).issue_code ≠ j.issue_code →
      (upsert_apply j a now).issue_code = a.issue_code) ∧
    ((upsert_apply j a now).issue_label ≠ j.issue_label →
      (upsert_apply j a now).issue_label = a.issue_label) ∧
    ((upsert_apply j a now).issue_year ≠ j.issue_year →
      (upsert_apply j a now).issue_year = a.issue_year) ∧
    ((upsert_apply j a now).issue_month ≠ j.issue_month →
      (upsert_apply j a now).issue_month = a.issue_month) ∧
    ((upsert_apply j a now).issue_number ≠ j.issue_number →
      (upsert_apply j a now).issue_number = a.issue_number) ∧
    (upsert_apply j a now).last_seen = j.last_seen ∧
    (upsert_apply j a now).created_at = j.created_at := by
  have hex : (match a.nzo_id with
      | some s' => if s' ≠ "" then get_download_job_by_nzo db s' else none
      | none => none) = some j := by
    rw [hs]; simp [hns, hfound]
  refine ⟨?_, ?_, upsert_noop_or_refresh j a now, ?_, ?_, ?_, ?_, ?_, ?_, ?_, ?_, ?_, ?_, ?_⟩
  · unfold upsert_download_job
    rw [hex]
    simp
  · unfold upsert_download_job
    rw [hex]
  · intro hne
    rw [upsert_title_proj] at hne ⊢
    have h2 := updTruthyStr_change hne
    exact ⟨h2.1, h2.2⟩
  · intro hne
    rw [upsert_mag_proj] at hne ⊢
    exact updNotNone_change hne
  · intro hne
    rw [upsert_link_proj] at hne ⊢
    have h2 := updTruthyStr_change hne
    exact ⟨h2.1, h2.2⟩
  · intro hne
    rw [upsert_status_proj] at hne ⊢
    exact updOptStatus_change hne
  · intro hne
    rw [upsert_icode_proj] at hne ⊢
    exact updNotNone_change hne
  · intro hne
    rw [upsert_ilabel_proj] at hne ⊢
    exact updNotNone_change hne
  · intro hne
    rw [upsert_iyear_proj] at hne ⊢
    exact updNotNone_change hne
  · intro hne
    rw [upsert_imonth_proj] at hne ⊢
    exact updNotNone_change hne
  · intro hne
    rw [upsert_inum_proj] at hne ⊢
    exact updNotNone_change hne
  · unfold upsert_apply
    dsimp only
    split <;> rfl
  · unfold upsert_apply
    dsimp only
    split <;> rfl

/-- C6 witness: the amended theorem applied to the concrete second call. -/
theorem C6_witness :
    (upsert_download_job dbC6 argsC6 99).1.length = dbC6.length :=
  (C6_upsert_same_id_no_second_row dbC6 argsC6 99 "z"
    (upsert_download_job [] argsC6 10).2 rfl (by decide) (by decide)).1

/-! ## Claim C1 -/

/-- Terminal rows pass through the reconciliation map unchanged,
positionally. -/
lemma sync_reconcile_terminal_get {db : JobDB} {i : Nat} {j : DownloadJob}
    (hget : db[i]? = some j) (hterm : j.status = "failed" ∨ j.status = "moved")
    (qm : String → Option SabnzbdQueueItem)
    (hm : String → Option SabnzbdHistoryItem) (now : Int) :
    (sync_reconcile db qm hm now)[i]? = some j := by
  unfold sync_reconcile
  rw [List.getElem?_map, hget]
  have hcond : ¬(j.status ≠ "failed" ∧ j.status ≠ "moved") := by tauto
  simp [hcond]

/-- Terminal rows pass through the auto-fail sweep unchanged, positionally. -/
lemma auto_fail_sweep_terminal_get {db : JobDB} {i : Nat} {j : DownloadJob}
    (hget : db[i]? = some j) (hterm : j.status = "failed" ∨ j.status = "moved")
    (cfg : AutoFailConfig) (now : Int) :
    (auto_fail_sweep db cfg now)[i]? = some j := by
  by_cases h1 : cfg.auto_fail_enabled = false
  · simp only [auto_fail_sweep, if_pos h1]
    exact hget
  · simp only [auto_fail_sweep, if_neg h1]
    by_cases h2 : threshold_minutes cfg ≤ 0
    · simp only [if_pos h2]
      exact hget
    · simp only [if_neg h2]
      rw [List.getElem?_map, hget]
      simp [hterm]

/-- C1 counterexample: a row already terminal (`failed`) for external id
"x1" has its status overwritten to `queued` by the Scheduler-shaped upsert of
the same external id — terminal statuses are not protected from upsert. -/
theorem C1_counterexample :
    jobC1.status = "failed" ∧ jobC1.sabnzbd_id = argsC1.nzo_id ∧
    ((upsert_download_job [jobC1] argsC1 500).1.map (fun j => j.status)) = ["queued"] ∧
    (upsert_download_job [jobC1] argsC1 500).2.status = "queued" := by
  exact ⟨rfl, rfl, by decide, by decide⟩

/-- C1 (amended): once a job is `failed` or `moved` the Tracker's
reconciliation and auto-fail sweep leave it untouched (it is excluded from
the active listing) and the Monitor's entry matcher never returns it; the
Scheduler's upsert of the same external id, however, does overwrite a
terminal status when called with a different non-empty status, so terminality
is enforced by the reading components, not by the upsert. -/
theorem C1_terminal_skipped_by_tracker_and_monitor (db : JobDB)
    (qs : List SabnzbdQueueItem) (hs : List SabnzbdHistoryItem)
    (cfg : AutoFailConfig) (now : Int) (i : Nat) (j : DownloadJob)
    (hget : db[i]? = some j) (hterm : j.status = "failed" ∨ j.status = "moved") :
    (tracker_sync_once db qs hs cfg now)[i]? = some j ∧
    j ∉ list_active_download_jobs db ∧
    (∀ e j2, find_download_job_for_entry db e = some j2 →
      j2.status ≠ "failed" ∧ j2.status ≠ "moved") := by
  refine ⟨?_, ?_, ?_⟩
  · unfold tracker_sync_once
    exact auto_fail_sweep_terminal_get
      (sync_reconcile_terminal_get hget hterm _ _ _) hterm _ _
  · intro hmem
    unfold list_active_download_jobs at hmem
    have hp := (List.mem_filter.mp hmem).2
    simp only [decide_eq_true_eq] at hp
    tauto
  · intro e j2 hfind
    dsimp only [find_download_job_for_entry] at hfind
    have hmem := List.mem_of_find?_eq_some hfind
    have hp := (List.mem_filter.mp hmem).2
    simp only [decide_eq_true_eq, List.mem_cons, List.mem_singleton,
      List.not_mem_nil, or_false] at hp
    constructor <;> intro hcon <;> rw [hcon] at hp <;> simp at hp

/-- C1 witness: the amended theorem applied to a one-row database holding a
`moved` job. -/
theorem C1_witness :
    (tracker_sync_once [jobW1] [] [] cfgC5 777)[0]? = some jobW1 :=
  (C1_terminal_skipped_by_tracker_and_monitor [jobW1] [] [] cfgC5 777 0 jobW1
    rfl (Or.inr rfl)).1

/-! ## Claim C2 -/

/-- Every selected pair was accepted by the loop body on its own result. -/
lemma select_go_mem {job_index : List (String × IssueState)}
    {guards : List (String × MagazineGuard)} {m : Nat} :
    ∀ {res : List SearchResult} {c : Nat} {k : String} {r : SearchResult},
      (k, r) ∈ select_go job_index guards m c res →
      candidate_key job_index guards r = some k := by
  intro res
  induction res with
  | nil => intro c k r h; simp [select_go] at h
  | cons x xs ih =>
    intro c k r h
    unfold select_go at h
    by_cases hc : m ≤ c
    · rw [if_pos hc] at h
      simp at h
    · rw [if_neg hc] at h
      split at h
      · exact ih h
      · rename_i key hck
        rcases List.mem_cons.mp h with heq | htail
        · have hk : k = key := congrArg Prod.fst heq
          have hr : r = x := congrArg Prod.snd heq
          rw [hr, hk]
          exact hck
        · exact ih htail

/-- An accepted candidate's pre-existing bucket (when any) was inactive and
did not hold the candidate's link. -/
lemma candidate_key_bucket {job_index : List (String × IssueState)}
    {guards : List (String × MagazineGuard)} {r : SearchResult} {k : String}
    (h : candidate_key job_index guards r = some k) :
    ∀ st, job_index.lookup k = some st → st.active = false ∧ r.link ∉ st.links := by
  intro st hst
  simp only [candidate_key] at h
  split at h
  · simp at h
  · split at h
    · simp at h
    · split at h
      · simp at h
      · split at h
        · split at h
          · simp at h
          · split at h
            · simp at h
            · simp_all
        · rename_i hik hlk
          rw [Option.some.injEq] at h
          rw [h] at hlk
          rw [hlk] at hst
          exact absurd hst (by simp)

/-- The count-based cap bounds the number of selections. -/
lemma select_go_length {job_index : List (String × IssueState)}
    {guards : List (String × MagazineGuard)} :
    ∀ {res : List SearchResult} {m c : Nat},
      (select_go job_index guards m c res).length ≤ m - c := by
  intro res
  induction res with
  | nil => intro m c; simp [select_go]
  | cons x xs ih =>
    intro m c
    unfold select_go
    by_cases hc : m ≤ c
    · simp [hc]
    · rw [if_neg hc]
      split
      · exact ih
      · simp only [List.length_cons]
        have h2 := ih (m := m) (c := c + 1)
        omega

/-- C2 counterexample: with the per-scan cap at 2, two same-cycle results
resolving to the same IssueIdentity with no prior job are BOTH selected — the
selection loop does not mark the bucket active on acceptance, so the second
same-identity candidate is not skipped and "only the first is selected"
fails. -/
theorem C2_counterexample :
    (select_candidates [resultC2a, resultC2b] [] [] 2).map Prod.snd =
      [resultC2a, resultC2b] ∧
    result_issue_key resultC2a = result_issue_key resultC2b ∧
    resultC2a ≠ resultC2b := by
  exact ⟨by decide, by decide, by decide⟩

/-- C2 (amended): selection deduplicates only against the pre-existing job
index — every accepted candidate's prior bucket (when one exists) was
inactive and lacked the candidate's link — and the per-scan cap bounds the
selection count, so with the default cap of one result per scan at most the
first eligible result is selected; the bucket is marked active only after a
successful enqueue, after persistence, so same-identity candidates with no
prior job can all be selected when the cap allows. -/
theorem C2_dedup_only_against_job_index (results : List SearchResult)
    (job_index : List (String × IssueState))
    (guards : List (String × MagazineGuard)) (cap : Nat) (k : String)
    (r : SearchResult)
    (hmem : (k, r) ∈ select_candidates results job_index guards cap) :
    (∀ st, job_index.lookup k = some st → st.active = false ∧ r.link ∉ st.links) ∧
    (select_candidates results job_index guards 1).length ≤ 1 := by
  refine ⟨fun st hst => candidate_key_bucket (select_go_mem hmem) st hst, ?_⟩
  have h2 := @select_go_length job_index guards results (max 1 1) 0
  simpa [select_candidates] using h2

/-- C2 witness: the amended theorem applied to a concrete singleton scan. -/
theorem C2_witness :
    (select_candidates [resultC2a] [] [] 1).length ≤ 1 :=
  (C2_dedup_only_against_job_index [resultC2a] [] [] 1 "mag a::code::202406"
    resultC2a (by decide)).2

/-! ## Claim C3 -/

/-- The token clause accepts exactly when every required token appears among
the candidate title's normalized tokens. -/
lemma guard_token_check_iff (r : SearchResult) (g : MagazineGuard) :
    guard_token_check r g = true ↔
      ∀ t ∈ g.tokens, t ∈ pySplitWS (normalize_text r.title) := by
  unfold guard_token_check
  cases hg : g.tokens with
  | nil => simp
  | cons t ts =>
    by_cases hn : pySplitWS (normalize_text r.title) = []
    · simp [hn]
      exact ⟨t, fun hc => absurd rfl hc⟩
    · simp [hn, List.all_eq_true]

/-- C3 counterexample: a guard requiring the token "fernsehwoche" accepts a
candidate from a strictly later year whose normalized title does not contain
that token — the strictly-later-year early return skips the token check, so
"the token rule must hold for acceptance" fails. -/
theorem C3_counterexample :
    passes_guard resultC3 guardC3 = true ∧
    guardC3.tokens = ["fernsehwoche"] ∧
    guardC3.min_year = some 2024 ∧ resultC3.issue_year = some 2025 ∧
    "fernsehwoche" ∉ pySplitWS (normalize_text resultC3.title) := by
  exact ⟨by decide, rfl, rfl, rfl, by decide⟩

/-- C3 (amended): with a minimum year configured, a strictly later candidate
year short-circuits the guard to acceptance without consulting the required
tokens; the token rule is enforced only on the fall-through paths — in
particular, for an equal year with a configured and satisfied minimum issue,
acceptance holds exactly when every required normalized token appears in the
candidate's normalized title. -/
theorem C3_later_year_skips_token_check (r : SearchResult) (g : MagazineGuard)
    (y iy : Int) (hmy : g.min_year = some y) (hry : r.issue_year = some iy) :
    (y < iy → passes_guard r g = true) ∧
    (iy = y → ∀ mi n, g.min_issue = some mi → r.issue_number = some n → mi ≤ n →
      (passes_guard r g = true ↔
        ∀ t ∈ g.tokens, t ∈ pySplitWS (normalize_text r.title))) := by
  constructor
  · intro hlt
    have h1 : ¬ iy < y := by omega
    simp [passes_guard, hmy, hry, h1, hlt]
  · intro heq mi n hmi hn hle
    rw [heq] at hry
    have h1 : ¬ (y : Int) < y := lt_irrefl y
    have h2 : ¬ n < mi := not_lt.mpr hle
    simp [passes_guard, hmy, hry, hmi, hn, h1, h2, guard_token_check_iff]

/-- C3 witness: the amended theorem applied to an equal-year candidate that
meets the minimum issue and carries the required token. -/
theorem C3_witness :
    passes_guard resultW3 guardW3 = true ↔
      ∀ t ∈ guardW3.tokens, t ∈ pySplitWS (normalize_text resultW3.title) :=
  (C3_later_year_skips_token_check resultW3 guardW3 2024 2024 rfl rfl).2 rfl 5 6
    rfl rfl (by decide)

/-! ## Claim C7 -/

/-- Whatever `find_download_job_for_entry` returns is a database row in one
of the five matchable statuses. -/
lemma find_entry_mem_status {db : JobDB} {e : String} {j : DownloadJob}
    (h : find_download_job_for_entry db e = some j) :
    j ∈ db ∧ (j.status = "pending" ∨ j.status = "queued" ∨
      j.status = "downloading" ∨ j.status = "processing" ∨
      j.status = "completed") := by
  dsimp only [find_download_job_for_entry] at h
  have hmem := List.mem_of_find?_eq_some h
  have hmf := List.mem_filter.mp hmem
  refine ⟨hmf.1, ?_⟩
  have hp := hmf.2
  simpa using hp

/-- C7 (confirmed): a matched entry whose job is not `completed` or
`processing` is deferred — no relocation, no import, no database change —
and every row the monitor pass changes was `completed` or `processing`
before, and is now `moved` with its staging path cleared. -/
theorem C7_moved_written_only_from_completed_or_processing (db : JobDB)
    (entry : String) (imp : Option Dest) (now : Int)
    (hids : (db.map (fun j => j.id)).Nodup) :
    (∀ job, find_download_job_for_entry db entry = some job →
      job.status ∉ (["completed", "processing"] : List String) →
      move_entry db entry imp now = (db, false)) ∧
    (∀ j2 ∈ (move_entry db entry imp now).1, j2 ∉ db →
      j2.status = "moved" ∧ j2.staging_path = none ∧
      ∃ j ∈ db, j.id = j2.id ∧ (j.status = "completed" ∨ j.status = "processing")) := by
  constructor
  · intro job hfind hst
    unfold move_entry
    rw [hfind]
    dsimp only
    rw [if_pos hst]
  · intro j2 hj2 hnot
    unfold move_entry at hj2
    cases hfind : find_download_job_for_entry db entry with
    | none =>
      rw [hfind] at hj2
      exact absurd hj2 hnot
    | some job =>
      rw [hfind] at hj2
      dsimp only at hj2
      by_cases hst : job.status ∉ (["completed", "processing"] : List String)
      · rw [if_pos hst] at hj2
        exact absurd hj2 hnot
      · rw [if_neg hst] at hj2
        have hstm : job.status = "completed" ∨ job.status = "processing" := by
          have := not_not.mp hst
          simpa using this
        cases imp with
        | none =>
          dsimp only at hj2
          exact absurd hj2 hnot
        | some dest =>
          dsimp only at hj2
          unfold record_move at hj2
          cases hfd : db.find? (fun x => decide (x.id = job.id)) with
          | none =>
            rw [hfd] at hj2
            exact absurd hj2 hnot
          | some jb =>
            rw [hfd] at hj2
            dsimp only at hj2
            obtain ⟨x, hx, hfx⟩ := List.mem_map.mp hj2
            by_cases hid : x.id = jb.id
            · rw [if_pos hid] at hfx
              have hjbmem := List.mem_of_find?_eq_some hfd
              have hjbid : jb.id = job.id := by
                simpa using List.find?_some hfd
              have hjobmem := (find_entry_mem_status hfind).1
              have hjbeq : jb = job :=
                List.inj_on_of_nodup_map hids hjbmem hjobmem (by rw [hjbid])
              rw [← hfx]
              refine ⟨rfl, rfl, jb, hjbmem, rfl, ?_⟩
              rw [hjbeq]
              exact hstm
            · rw [if_neg hid] at hfx
              rw [← hfx] at hnot
              exact absurd hx hnot

/-- C7 witness: the theorem applied to a one-row database whose matched job
is still `pending`, so the ready entry is deferred with no state change. -/
theorem C7_witness :
    move_entry [jobC7pending] "entry.pdf" (some destC7) 999 = ([jobC7pending], false) :=
  (C7_moved_written_only_from_completed_or_processing [jobC7pending] "entry.pdf"
    (some destC7) 999 (by decide)).1 jobC7pending (by decide) (by decide)

/-! ## Claim C10 -/

/-- C10 (confirmed): a missing or empty raw engine status maps to "queued"
for a queue-snapshot item and to "completed" for a history-snapshot item, and
a history item with such a status gives the matched job the awaiting-import
treatment: status "completed", the fixed message, and progress forced
to 100. -/
theorem C10_empty_status_mapping (s : Option String) (job : DownloadJob)
    (h : SabnzbdHistoryItem) (now : Int)
    (hs : optStrTruthy s = false) (hh : h.status = s) :
    map_queue_status s = "queued" ∧ map_history_status s = "completed" ∧
    (apply_history_item job h now).status = "completed" ∧
    (apply_history_item job h now).message = some "Awaiting import into library" ∧
    (apply_history_item job h now).progress = some 100 := by
  have hmq : map_queue_status s = "queued" := by
    cases s with
    | none => rfl
    | some v =>
      have hv : v = "" := by simpa [optStrTruthy] using hs
      rw [hv]
      rfl
  have hmh : map_history_status s = "completed" := by
    cases s with
    | none => rfl
    | some v =>
      have hv : v = "" := by simpa [optStrTruthy] using hs
      rw [hv]
      rfl
  have harg : apply_history_item job h now = update_download_job_status job
      { status := some "completed", sab_status := h.status, progress := some 100,
        time_remaining := none, message := some "Awaiting import into library",
        content_name := h.name, completed_at := h.completed } now := by
    dsimp only [apply_history_item]
    rw [hh, hmh]
    simp
  refine ⟨hmq, hmh, ?_, ?_, ?_⟩
  · rw [harg, update_status_proj]
    exact updOptStatus_some_fst _ (by decide)
  · rw [harg, update_message_proj]
    exact updNotNone_some_fst _ _
  · rw [harg, update_progress_proj]
    exact updNotNone_some_fst _ _

/-- C10 witness: the theorem applied to a concrete history item whose raw
status is missing. -/
theorem C10_witness :
    map_queue_status none = "queued" ∧ map_history_status none = "completed" ∧
    (apply_history_item baseJob histC10 400).status = "completed" ∧
    (apply_history_item baseJob histC10 400).message =
      some "Awaiting import into library" ∧
    (apply_history_item baseJob histC10 400).progress = some 100 :=
  C10_empty_status_mapping none baseJob histC10 400 rfl rfl

/-! ## Claim C8 -/

/-- C8 counterexample: the bare title "202406" has a 6-digit token whose
first 4 digits are a valid year (2024 ≤ 2025 + 1), and the parser does set
year 2024 / issue 6 (style 13), but the issue code it produces is the
date-shaped "2024-00-01" — not "202406" — because the final formatting
switch has no case for style 13. -/
theorem C8_counterexample :
    (parse_issue 2025 "202406" none "en").map
      (fun md => (md.year, md.issue_number, md.issue_code)) =
      some (2024, some 6, "2024-00-01") ∧
    check_year 2025 "2024" = 2024 ∧
    ("2024-00-01" : String) ≠ "202406" := by
  exact ⟨by decide, by decide, by decide⟩

set_option maxRecDepth 100000 in
set_option maxHeartbeats 4000000 in
/-- C8 (amended): a title that is a 6-digit pure-numeric token whose first 4
digits form a valid year decodes to year = first 4 digits and
issue = last 2 digits (style tag 13), but its issue code is the date-shaped
"{year}-00-01" (month 0, day defaulted to 1), not "{year}{last2:>02}";
only when an issue noun was also found (so the issue-noun formatting path
runs) does the code become the year followed by the issue zero-padded to
FOUR digits, e.g. "20240006" for "Issue 5 202406". -/
theorem C8_six_digit_token_code_shape :
    (∀ d : Fin 100, (parse_issue 2025 ("2024" ++ natPad 2 d.val) none "en").map
        (fun md => (md.year, md.issue_number, md.issue_code)) =
      some (2024, (if (d : Nat) ≠ 0 then some ((d : Nat) : Int) else none),
        "2024-00-01")) ∧
    (get_dateparts 2025 "Issue 5 202406" "").map
        (fun dp => (dp.year, dp.issue, dp.style, dp.dbdate)) =
      some (2024, 6, 13, some "20240006") := by
  exact ⟨by decide, by decide⟩

/-! ## Claim C9 -/

/-- C9 counterexample: the parser is not independent of the wall clock — the
same inputs (title "2026", no magazine, language "en") parse differently when
the current UTC year is 2026 (year token accepted: year 2026, no issue
number) versus 2024 (year rejected by `check_year`, the token becomes a bare
issue number instead). -/
theorem C9_counterexample :
    parse_issue 2026 "2026" none "en" ≠ parse_issue 2024 "2026" none "en" ∧
    (parse_issue 2026 "2026" none "en").map (fun md => (md.year, md.issue_number)) =
      some (2026, none) ∧
    (parse_issue 2024 "2026" none "en").map (fun md => (md.year, md.issue_number)) =
      some (0, some 2026) := by
  exact ⟨by decide, by decide, by decide⟩

/-- C9 (amended): the parser is a pure, deterministic function of its inputs
AND the current UTC year: two invocations with identical inputs under the
same current year always return identical results, and the only ambient
dependence is the clock entering through `check_year`, which accepts a year
token exactly within the window 1900 .. current year + 1. -/
theorem C9_deterministic_given_current_year (cy : Int) (title : String)
    (magazine_title : Option String) (language : String) :
    parse_issue cy title magazine_title language =
      parse_issue cy title magazine_title language ∧
    (∀ s, check_year cy s = 0 ∨
      (1900 ≤ check_year cy s ∧ check_year cy s ≤ cy + 1)) := by
  refine ⟨rfl, fun s => ?_⟩
  unfold check_year
  by_cases h1 : pyIsDigitStr s = true
  · rw [if_pos h1]
    by_cases h2 : 1900 ≤ digitsToInt s ∧ digitsToInt s ≤ cy + 1
    · rw [if_pos h2]
      exact Or.inr h2
    · rw [if_neg h2]
      exact Or.inl rfl
  · rw [if_neg (by simpa using h1)]
    exact Or.inl rfl

end Gazarr
